import Mathlib

/-!
# Scroll-driven background crossfade engine — shallow embedding

This file embeds the scroll-driven background crossfade engine of
`main.js` (the cv-website repository) in Lean 4 and proves the
specification's claims about it.

Strings are modelled as `List Char` (`Str`), so that the JavaScript
`String.prototype.includes` substring check used by the engine can be
modelled faithfully. DOM elements touched by the engine are modelled by
records carrying exactly the attributes/styles the engine reads or
writes. The two IntersectionObserver callbacks (variant A, the "global"
topology, and variant B, the "pinned chapters" topology) become pure
step functions on explicit state records, and a scroll session is a
left fold of the step function over the list of emitted entry events.
-/

/-- Character-list strings, the model of JavaScript strings. -/
abbrev Str := List Char

/-- Convert a Lean string literal into its character-list model. -/
def str (s : String) : Str := s.data

/-- The single-quote character used by the `url('…')` CSS wrapper. -/
def quoteChar : Char := Char.ofNat 39

/-- Model of the template literal `url('${url}')` written into
`style.backgroundImage` by the engine. -/
def cssUrl (u : Str) : Str := str "url(" ++ [quoteChar] ++ u ++ [quoteChar] ++ str ")"

/-- `leadsWith needle hay` is true when `hay` starts with `needle`
(model of a prefix test on JavaScript strings). -/
def leadsWith : Str → Str → Bool
  | [], _ => true
  | _ :: _, [] => false
  | a :: as, b :: bs => a == b && leadsWith as bs

/-- Model of JavaScript `hay.includes(needle)`: `needle` occurs as a
contiguous substring of `hay` (the empty needle always occurs). -/
def jsIncludes (hay needle : Str) : Bool :=
  match hay with
  | [] => needle.isEmpty
  | _ :: t => leadsWith needle hay || jsIncludes t needle

/-- A background layer element: its `style.backgroundImage` string
(empty when never set) and whether it carries the `is-active` class. -/
structure Layer where
  bgImage : Str
  isActive : Bool
deriving DecidableEq, Repr

/-! ## Variant A: global topology (`globalBG`, main.js lines 430–477) -/

/-- A "segment entered" observation delivered to the global-topology
IntersectionObserver callback: the intersection flag and the marker's
`data-bg` / `data-tint` attributes (`none` models a missing attribute). -/
structure GEvent where
  isIntersecting : Bool
  dataBg : Option Str
  dataTint : Option Str
deriving DecidableEq, Repr

/-- The mutable state owned by the global-topology controller: the two
layers `.g-bgA` / `.g-bgB`, the `--bg-tint` custom property of the
`.g-overlay` element (`none` when never set), the `useA` flip flag, and
the list of URLs passed to `preload` (in order). -/
structure GState where
  layerA : Layer
  layerB : Layer
  overlayTint : Option Str
  useA : Bool
  preloads : List Str
deriving DecidableEq, Repr

/-- The layer currently treated as active by the controller
(`useA ? layerA : layerB`). -/
def gActive (s : GState) : Layer := if s.useA then s.layerA else s.layerB

/-- The layer currently treated as inactive by the controller
(`useA ? layerB : layerA`). -/
def gInactive (s : GState) : Layer := if s.useA then s.layerB else s.layerA

/-- Model of `const tint = e.target.getAttribute('data-tint') || null;`:
a missing attribute or an empty string both become `none`. -/
def tintOf (e : GEvent) : Option Str :=
  match e.dataTint with
  | some t => if t = [] then none else some t
  | none => none

/-- One step of the global-topology IntersectionObserver callback
(main.js lines 445–469). `overlay` records whether the `.g-overlay`
element was found (`if (overlay && tint) …`). Non-intersecting entries
and entries with a missing or empty `data-bg` are ignored. If the
active layer's `backgroundImage` string contains the URL, only the tint
is updated; otherwise the URL is preloaded and written into the
inactive layer, the `is-active` class moves to it, `useA` flips, and
the tint is updated. -/
def gStep (overlay : Bool) (s : GState) (e : GEvent) : GState :=
  if e.isIntersecting = false then s else
  match e.dataBg with
  | none => s
  | some url =>
    if url = [] then s else
    let tint := tintOf e
    let setTint : Option Str → Option Str := fun old =>
      if overlay then (match tint with | some t => some t | none => old) else old
    if jsIncludes (gActive s).bgImage url then
      { s with overlayTint := setTint s.overlayTint }
    else
      if s.useA then
        { layerA := { s.layerA with isActive := false }
          layerB := { bgImage := cssUrl url, isActive := true }
          overlayTint := setTint s.overlayTint
          useA := false
          preloads := s.preloads ++ [url] }
      else
        { layerA := { bgImage := cssUrl url, isActive := true }
          layerB := { s.layerB with isActive := false }
          overlayTint := setTint s.overlayTint
          useA := true
          preloads := s.preloads ++ [url] }

/-- A scroll session for the global topology: fold the step function
over the emitted events in order. -/
def gRun (overlay : Bool) (s : GState) (evs : List GEvent) : GState :=
  evs.foldl (gStep overlay) s

/-! ## Variant B: pinned chapters topology (`chaptersBG`, main.js lines 480–571) -/

/-- A `.chap-content` panel element: its `data-idx` and `data-bg`
attributes (`none` models a missing attribute) and whether it carries
the `is-active` class. -/
structure Panel where
  dataIdx : Option Str
  dataBg : Option Str
  isActiveClass : Bool
deriving DecidableEq, Repr

/-- A "segment entered" observation delivered to the chapters
IntersectionObserver callback: the intersection flag and the chapter
marker's `data-idx` / `data-bg` attributes. -/
structure CEvent where
  isIntersecting : Bool
  dataIdx : Option Str
  dataBg : Option Str
deriving DecidableEq, Repr

/-- The mutable state owned by the chapters controller: the two layers
`.chapters-bgA` / `.chapters-bgB`, the `useA` flip flag, the
`chapters.dataset.active` string, the panel elements (class state
included), and the list of URLs passed to `preload` (in order). -/
structure CState where
  bgA : Layer
  bgB : Layer
  useA : Bool
  datasetActive : Str
  panels : List Panel
  preloads : List Str
deriving DecidableEq, Repr

/-- The chapters layer currently treated as active (`useA ? bgA : bgB`). -/
def cActive (s : CState) : Layer := if s.useA then s.bgA else s.bgB

/-- Model of `setActivePanel(idx)` (main.js lines 532–536): write `idx`
into `chapters.dataset.active` and toggle each panel's `is-active`
class on exactly when its `data-idx` attribute strictly equals `idx`
(a missing attribute, JavaScript `null`, never equals a string). -/
def setActivePanel (s : CState) (idx : Str) : CState :=
  { s with datasetActive := idx
           panels := s.panels.map fun p =>
             { p with isActiveClass := p.dataIdx == some idx } }

/-- One step of the chapters IntersectionObserver callback (main.js
lines 541–567). The marker's `data-idx` defaults to the empty string
(`|| ''`). Entries with a missing or empty `data-bg` are ignored. If
the active layer's `backgroundImage` string contains the URL, only the
panel state is updated; otherwise the URL is preloaded and written into
the inactive layer, the `is-active` class moves to it, `useA` flips,
and the panel state is updated. -/
def cStep (s : CState) (e : CEvent) : CState :=
  if e.isIntersecting = false then s else
  let idx := e.dataIdx.getD []
  match e.dataBg with
  | none => s
  | some nextURL =>
    if nextURL = [] then s else
    if jsIncludes (cActive s).bgImage nextURL then
      setActivePanel s idx
    else
      let swapped : CState :=
        if s.useA then
          { s with bgA := { s.bgA with isActive := false }
                   bgB := { bgImage := cssUrl nextURL, isActive := true }
                   useA := false
                   preloads := s.preloads ++ [nextURL] }
        else
          { s with bgA := { bgImage := cssUrl nextURL, isActive := true }
                   bgB := { s.bgB with isActive := false }
                   useA := true
                   preloads := s.preloads ++ [nextURL] }
      setActivePanel swapped idx

/-- A scroll session for the chapters topology. -/
def cRun (s : CState) (evs : List CEvent) : CState :=
  evs.foldl cStep s

/-- The chapters controller state right after setup (main.js lines
494–495 and 531–537): layer A freshly created with the `is-active`
class and no image, layer B without, `dataset.active` defaulted to
`"1"` when previously unset (`|| '1'`), then `setActivePanel` applied
to that value. `prior` is the pre-existing `dataset.active` value
(empty when unset), `panels` the discovered `.chap-content` elements. -/
def cInit (panels : List Panel) (prior : Str) : CState :=
  let d := if prior = [] then str "1" else prior
  setActivePanel
    { bgA := { bgImage := [], isActive := true }
      bgB := { bgImage := [], isActive := false }
      useA := true
      datasetActive := d
      panels := panels
      preloads := [] } d

/-! ## Markers, marker synthesis and observer attachment -/

/-- A marker element (`.bg-chapter` or `.chapter`): the attributes the
engine reads plus its inline `style.height` (empty when unset). -/
structure MarkerElem where
  dataIdx : Option Str
  dataBg : Option Str
  dataTint : Option Str
  styleHeight : Str
deriving DecidableEq, Repr

/-- Global-topology marker preparation before `io.observe(m)` (main.js
lines 472–475): markers whose inline height is unset get a default
`'120px'` hitbox; others are observed as they are. -/
def globalObservedMarker (m : MarkerElem) : MarkerElem :=
  if m.styleHeight = [] then { m with styleHeight := str "120px" } else m

/-- The alternating default image for synthesized chapter markers
(main.js line 516): black for even positions, white for odd ones. -/
def synthFallback (i : Nat) : Str :=
  if i % 2 = 0 then str "background-photos/black.jpeg"
  else str "background-photos/white.jpeg"

/-- One synthesized chapter marker (main.js lines 510–520), built for
the panel at position `i` (zero-based): `data-idx` is `i+1`, `data-bg`
is the panel's `data-bg` or the alternating fallback (`||`, so an empty
panel attribute also falls back), and `style.height` is `'140vh'`. -/
def synthMarker (i : Nat) (p : Panel) : MarkerElem :=
  { dataIdx := some (str (toString (i + 1)))
    dataBg := some (match p.dataBg with
      | some b => if b = [] then synthFallback i else b
      | none => synthFallback i)
    dataTint := none
    styleHeight := str "140vh" }

/-- Panel mutation done during synthesis (main.js line 508): a panel
whose `data-idx` is missing or empty gets `i+1`. -/
def synthPanelIdx (i : Nat) (p : Panel) : Panel :=
  match p.dataIdx with
  | some d => if d = [] then { p with dataIdx := some (str (toString (i + 1))) } else p
  | none => { p with dataIdx := some (str (toString (i + 1))) }

/-- The chapter markers eventually observed (main.js lines 502–527):
when no authored `.chapter` markers exist but panels do, one marker per
panel is synthesized; otherwise the authored markers are used. Either
way the live markers are observed as they are (line 570) — no height
adjustment is applied to authored markers. -/
def chaptersLiveMarkers (authored : List MarkerElem) (panels : List Panel) : List MarkerElem :=
  if authored.isEmpty && !panels.isEmpty then
    panels.enum.map fun ip => synthMarker ip.1 ip.2
  else authored

/-- The panel list after possible synthesis-time `data-idx` filling. -/
def chaptersEffectivePanels (authored : List MarkerElem) (panels : List Panel) : List Panel :=
  if authored.isEmpty && !panels.isEmpty then
    panels.enum.map fun ip => synthPanelIdx ip.1 ip.2
  else panels

/-! ## The whole engine (`scrollDrivenBackground`, main.js lines 408–594) -/

/-- Model of `initFirstBG` (main.js lines 417–427): if a first global
marker exists and carries a non-empty `data-bg`, its URL is written
into layer A and preloaded. -/
def initFirstBG (markers : List MarkerElem) (s : GState) : GState :=
  match markers with
  | [] => s
  | m :: _ =>
    match m.dataBg with
    | none => s
    | some u =>
      if u = [] then s
      else { s with layerA := { s.layerA with bgImage := cssUrl u }
                    preloads := s.preloads ++ [u] }

/-- Everything `scrollDrivenBackground` reads: the reduced-motion
preference, the page structure for both topologies as bootstrap left
it, and the entry-event streams the page's scrolling would produce. -/
structure EngineInput where
  prefersReduced : Bool
  globalPresent : Bool
  globalMarkers : List MarkerElem
  overlay : Bool
  g0 : GState
  gEvents : List GEvent
  chaptersPresent : Bool
  authoredMarkers : List MarkerElem
  panels0 : List Panel
  priorDatasetActive : Str
  c0bgA : Layer
  c0bgB : Layer
  cEvents : List CEvent
deriving Repr

/-- What the engine produced: which markers were handed to an
IntersectionObserver in each topology, and the final layer / overlay /
panel state of each topology. -/
structure EngineOutcome where
  gObserved : List MarkerElem
  cObserved : List MarkerElem
  gFinal : GState
  cFinal : CState
deriving DecidableEq, Repr

/-- The chapters DOM exactly as the engine found it, repackaged as a
`CState` (used when the engine never touches the chapters topology). -/
def untouchedChapters (inp : EngineInput) : CState :=
  { bgA := inp.c0bgA, bgB := inp.c0bgB, useA := true
    datasetActive := inp.priorDatasetActive
    panels := inp.panels0, preloads := [] }

/-- The `globalBG` module (main.js lines 430–477): bail out unless the
container and at least one marker and both layers exist, otherwise
seed the first background, observe the (height-defaulted) markers and
process the event stream. -/
def runGlobal (inp : EngineInput) : List MarkerElem × GState :=
  if inp.globalPresent && !inp.globalMarkers.isEmpty then
    let g1 := initFirstBG inp.globalMarkers inp.g0
    (inp.globalMarkers.map globalObservedMarker, gRun inp.overlay g1 inp.gEvents)
  else ([], inp.g0)

/-- The `chaptersBG` module (main.js lines 480–571): bail out unless a
chapters container exists and live markers (authored or synthesized)
are found; otherwise default `dataset.active`, apply the initial
`setActivePanel`, observe the live markers and process the events. -/
def runChapters (inp : EngineInput) : List MarkerElem × CState :=
  if inp.chaptersPresent = false then ([], untouchedChapters inp) else
  let live := chaptersLiveMarkers inp.authoredMarkers inp.panels0
  if live.isEmpty then ([], untouchedChapters inp) else
  let ps := chaptersEffectivePanels inp.authoredMarkers inp.panels0
  let d := if inp.priorDatasetActive = [] then str "1" else inp.priorDatasetActive
  let c1 := setActivePanel
    { bgA := inp.c0bgA, bgB := inp.c0bgB, useA := true
      datasetActive := d, panels := ps, preloads := [] } d
  (live, cRun c1 inp.cEvents)

/-- The whole `scrollDrivenBackground` IIFE (main.js lines 408–594):
under the reduced-motion preference it returns immediately — nothing is
observed, nothing is written; otherwise both topology modules run. -/
def runEngine (inp : EngineInput) : EngineOutcome :=
  if inp.prefersReduced then
    { gObserved := [], cObserved := []
      gFinal := inp.g0, cFinal := untouchedChapters inp }
  else
    let g := runGlobal inp
    let c := runChapters inp
    { gObserved := g.1, cObserved := c.1, gFinal := g.2, cFinal := c.2 }

/-! ## Specification-side predicates -/

/-- Exactly one of two layers carries the `is-active` class. -/
def exactlyOneActive (x y : Layer) : Prop :=
  (x.isActive = true ∧ y.isActive = false) ∨
  (x.isActive = false ∧ y.isActive = true)

/-- Internal coupling between the `useA` flag and the classes, for the
global topology: the flag always names the layer with the class. -/
def gInv (s : GState) : Prop :=
  s.layerA.isActive = s.useA ∧ s.layerB.isActive = !s.useA

/-- Same coupling for the chapters topology. -/
def cInv (s : CState) : Prop :=
  s.bgA.isActive = s.useA ∧ s.bgB.isActive = !s.useA

/-- How many panels currently carry the `is-active` class. -/
def currentPanelCount (s : CState) : Nat :=
  s.panels.countP fun p => p.isActiveClass

/-! ## Substring lemmas -/

theorem leadsWith_append (u v : Str) : leadsWith u (u ++ v) = true := by
  induction u with
  | nil => rfl
  | cons a as ih => simp [leadsWith, ih]

theorem jsIncludes_of_leadsWith {u hay : Str} (h : leadsWith u hay = true) :
    jsIncludes hay u = true := by
  cases hay with
  | nil => cases u with
    | nil => rfl
    | cons a as => simp [leadsWith] at h
  | cons b bs => simp [jsIncludes, h]

theorem jsIncludes_append_left {h u : Str} (x : Str)
    (hh : jsIncludes h u = true) : jsIncludes (x ++ h) u = true := by
  induction x with
  | nil => simpa using hh
  | cons c cs ih => simp [jsIncludes, ih]

/-- The URL written into a layer is always found back by the engine's
`includes` check: `u` occurs in `url('u')`. -/
theorem jsIncludes_cssUrl (u : Str) : jsIncludes (cssUrl u) u = true := by
  have base : jsIncludes (u ++ ([quoteChar] ++ str ")")) u = true :=
    jsIncludes_of_leadsWith (leadsWith_append u ([quoteChar] ++ str ")"))
  have step1 : jsIncludes ([quoteChar] ++ (u ++ ([quoteChar] ++ str ")"))) u = true :=
    jsIncludes_append_left [quoteChar] base
  have step2 := jsIncludes_append_left (h := [quoteChar] ++ (u ++ ([quoteChar] ++ str ")")))
    (str "url(") step1
  simpa [cssUrl, List.append_assoc] using step2

/-! ## Path lemmas for the global-topology step -/

/-- When the event intersects, carries a non-empty URL, and the active
layer's `backgroundImage` already contains that URL, the step touches
at most the overlay tint: both layers, the flip flag and the preload
list are unchanged. -/
theorem gStep_skip {s : GState} {e : GEvent} {u : Str} (o : Bool)
    (hi : e.isIntersecting = true) (hb : e.dataBg = some u) (hu : u ≠ [])
    (hin : jsIncludes (gActive s).bgImage u = true) :
    (gStep o s e).layerA = s.layerA ∧ (gStep o s e).layerB = s.layerB ∧
    (gStep o s e).useA = s.useA ∧ (gStep o s e).preloads = s.preloads := by
  simp only [gStep, hi, hb, Bool.true_eq_false, if_false, if_neg hu, hin, if_true]
  exact ⟨trivial, trivial, trivial, trivial⟩

/-- When the event intersects, carries a non-empty URL, and the active
layer's `backgroundImage` does not contain it, a swap happens: the flip
flag toggles, the new active layer shows `url('u')` with the `is-active`
class, the new inactive (previously active) layer loses the class while
keeping its image, and the URL is preloaded. -/
theorem gStep_swap {s : GState} {e : GEvent} {u : Str} (o : Bool)
    (hi : e.isIntersecting = true) (hb : e.dataBg = some u) (hu : u ≠ [])
    (hin : jsIncludes (gActive s).bgImage u = false) :
    (gStep o s e).useA = !s.useA ∧
    gActive (gStep o s e) = { bgImage := cssUrl u, isActive := true } ∧
    (gInactive (gStep o s e)).isActive = false ∧
    (gInactive (gStep o s e)).bgImage = (gActive s).bgImage ∧
    (gStep o s e).preloads = s.preloads ++ [u] := by
  simp only [gStep, hi, hb, Bool.true_eq_false, if_false, if_neg hu, hin]
  cases hA : s.useA <;>
    simp [gActive, gInactive, hA]

/-- The overlay tint is never changed by a step whose event carries a
missing or empty `data-tint`. -/
theorem gStep_tint_unchanged {e : GEvent} (o : Bool) (s : GState)
    (ht : e.dataTint = none ∨ e.dataTint = some []) :
    (gStep o s e).overlayTint = s.overlayTint := by
  have htint : tintOf e = none := by
    rcases ht with h | h <;> simp [tintOf, h]
  unfold gStep
  split
  · rfl
  · split
    · rfl
    · split
      · rfl
      · simp only [htint]
        split
        · simp
        · split <;> simp

/-! ## Path lemmas for the chapters step -/

/-- `setActivePanel` only touches `dataset.active` and the panels'
`is-active` classes: layers, flip flag and preloads are untouched. -/
theorem setActivePanel_frame (s : CState) (idx : Str) :
    (setActivePanel s idx).bgA = s.bgA ∧ (setActivePanel s idx).bgB = s.bgB ∧
    (setActivePanel s idx).useA = s.useA ∧
    (setActivePanel s idx).preloads = s.preloads := by
  exact ⟨rfl, rfl, rfl, rfl⟩

/-- When the event intersects, carries a non-empty URL already contained
in the active layer's `backgroundImage`, the chapters step is exactly
`setActivePanel` at the event's (defaulted) index. -/
theorem cStep_skip {s : CState} {e : CEvent} {u : Str}
    (hi : e.isIntersecting = true) (hb : e.dataBg = some u) (hu : u ≠ [])
    (hin : jsIncludes (cActive s).bgImage u = true) :
    cStep s e = setActivePanel s (e.dataIdx.getD []) := by
  simp only [cStep, hi, hb, Bool.true_eq_false, if_false, if_neg hu, hin, if_true]

/-- When the event intersects with a non-empty URL that the active
layer's `backgroundImage` does not contain, a swap happens before the
panel update: the flip flag toggles, the new active layer shows
`url('u')` with the `is-active` class, the previously active layer
loses the class while keeping its image, and the URL is preloaded. -/
theorem cStep_swap {s : CState} {e : CEvent} {u : Str}
    (hi : e.isIntersecting = true) (hb : e.dataBg = some u) (hu : u ≠ [])
    (hin : jsIncludes (cActive s).bgImage u = false) :
    (cStep s e).useA = !s.useA ∧
    cActive (cStep s e) = { bgImage := cssUrl u, isActive := true } ∧
    (cStep s e).preloads = s.preloads ++ [u] ∧
    (cStep s e).datasetActive = e.dataIdx.getD [] := by
  simp only [cStep, hi, hb, Bool.true_eq_false, if_false, if_neg hu, hin]
  cases hA : s.useA <;>
    simp [cActive, setActivePanel, hA]

/-! ## The at-most-one-active invariant -/

theorem gInv_exactlyOne {s : GState} (h : gInv s) :
    exactlyOneActive s.layerA s.layerB := by
  obtain ⟨h1, h2⟩ := h
  cases hu : s.useA <;> rw [hu] at h1 h2 <;>
    simp [exactlyOneActive, h1, h2]

theorem cInv_exactlyOne {s : CState} (h : cInv s) :
    exactlyOneActive s.bgA s.bgB := by
  obtain ⟨h1, h2⟩ := h
  cases hu : s.useA <;> rw [hu] at h1 h2 <;>
    simp [exactlyOneActive, h1, h2]

theorem gStep_inv (o : Bool) {s : GState} (e : GEvent) (h : gInv s) :
    gInv (gStep o s e) := by
  obtain ⟨h1, h2⟩ := h
  unfold gStep
  split
  · exact ⟨h1, h2⟩
  · split
    · exact ⟨h1, h2⟩
    · split
      · exact ⟨h1, h2⟩
      · dsimp only
        split
        · exact ⟨h1, h2⟩
        · split <;> exact ⟨rfl, rfl⟩

theorem gRun_inv (o : Bool) {s : GState} (evs : List GEvent) (h : gInv s) :
    gInv (gRun o s evs) := by
  induction evs generalizing s with
  | nil => exact h
  | cons e rest ih => exact ih (gStep_inv o e h)

theorem cStep_inv {s : CState} (e : CEvent) (h : cInv s) :
    cInv (cStep s e) := by
  obtain ⟨h1, h2⟩ := h
  unfold cStep
  split
  · exact ⟨h1, h2⟩
  · split
    · exact ⟨h1, h2⟩
    · split
      · exact ⟨h1, h2⟩
      · split
        · exact ⟨h1, h2⟩
        · dsimp only
          split <;> exact ⟨rfl, rfl⟩

theorem cRun_inv {s : CState} (evs : List CEvent) (h : cInv s) :
    cInv (cRun s evs) := by
  induction evs generalizing s with
  | nil => exact h
  | cons e rest ih => exact ih (cStep_inv e h)

/-! ## Run-level idempotence lemmas -/

theorem gActive_congr {s t : GState} (hA : t.layerA = s.layerA)
    (hB : t.layerB = s.layerB) (hU : t.useA = s.useA) :
    gActive t = gActive s := by
  unfold gActive
  rw [hA, hB, hU]

theorem cActive_congr {s t : CState} (hA : t.bgA = s.bgA)
    (hB : t.bgB = s.bgB) (hU : t.useA = s.useA) :
    cActive t = cActive s := by
  unfold cActive
  rw [hA, hB, hU]

/-- After any processed event carrying a non-empty URL `u`, the active
layer's `backgroundImage` contains `u` (global topology): either it
already did and the step skipped, or the swap wrote `url('u')`. -/
theorem gStep_shows {s : GState} {e : GEvent} {u : Str} (o : Bool)
    (hi : e.isIntersecting = true) (hb : e.dataBg = some u) (hu : u ≠ []) :
    jsIncludes (gActive (gStep o s e)).bgImage u = true := by
  cases hin : jsIncludes (gActive s).bgImage u with
  | true =>
    obtain ⟨hA, hB, hU, _⟩ := gStep_skip o hi hb hu hin
    rw [gActive_congr hA hB hU]
    exact hin
  | false =>
    obtain ⟨_, hact, _, _, _⟩ := gStep_swap o hi hb hu hin
    rw [hact]
    exact jsIncludes_cssUrl u

/-- Chapters analogue of `gStep_shows`. -/
theorem cStep_shows {s : CState} {e : CEvent} {u : Str}
    (hi : e.isIntersecting = true) (hb : e.dataBg = some u) (hu : u ≠ []) :
    jsIncludes (cActive (cStep s e)).bgImage u = true := by
  cases hin : jsIncludes (cActive s).bgImage u with
  | true =>
    rw [cStep_skip hi hb hu hin]
    obtain ⟨hA, hB, hU, _⟩ := setActivePanel_frame s (e.dataIdx.getD [])
    rw [cActive_congr hA hB hU]
    exact hin
  | false =>
    obtain ⟨_, hact, _, _⟩ := cStep_swap hi hb hu hin
    rw [hact]
    exact jsIncludes_cssUrl u

/-- Once the active layer's `backgroundImage` contains `u`, a whole run
of intersecting events all carrying `u` leaves both layers, the flip
flag and the preload list untouched (global topology). -/
theorem gRun_frozen (o : Bool) {u : Str} (hu : u ≠ []) :
    ∀ (evs : List GEvent) (s : GState),
      jsIncludes (gActive s).bgImage u = true →
      (∀ e ∈ evs, e.isIntersecting = true ∧ e.dataBg = some u) →
      (gRun o s evs).layerA = s.layerA ∧ (gRun o s evs).layerB = s.layerB ∧
      (gRun o s evs).useA = s.useA ∧ (gRun o s evs).preloads = s.preloads := by
  intro evs
  induction evs with
  | nil => exact fun s _ _ => ⟨rfl, rfl, rfl, rfl⟩
  | cons e rest ih =>
    intro s hin hall
    obtain ⟨hi, hb⟩ := hall e (List.mem_cons_self e rest)
    obtain ⟨hA, hB, hU, hP⟩ := gStep_skip o hi hb hu hin
    have hin2 : jsIncludes (gActive (gStep o s e)).bgImage u = true := by
      rw [gActive_congr hA hB hU]
      exact hin
    obtain ⟨hA2, hB2, hU2, hP2⟩ :=
      ih (gStep o s e) hin2 (fun e2 he2 => hall e2 (List.mem_cons_of_mem e he2))
    exact ⟨hA2.trans hA, hB2.trans hB, hU2.trans hU, hP2.trans hP⟩

/-- Chapters analogue of `gRun_frozen` (the panel state may still
change; the layers, flip flag and preloads do not). -/
theorem cRun_frozen {u : Str} (hu : u ≠ []) :
    ∀ (evs : List CEvent) (s : CState),
      jsIncludes (cActive s).bgImage u = true →
      (∀ e ∈ evs, e.isIntersecting = true ∧ e.dataBg = some u) →
      (cRun s evs).bgA = s.bgA ∧ (cRun s evs).bgB = s.bgB ∧
      (cRun s evs).useA = s.useA ∧ (cRun s evs).preloads = s.preloads := by
  intro evs
  induction evs with
  | nil => exact fun s _ _ => ⟨rfl, rfl, rfl, rfl⟩
  | cons e rest ih =>
    intro s hin hall
    obtain ⟨hi, hb⟩ := hall e (List.mem_cons_self e rest)
    have hstep := cStep_skip hi hb hu hin
    obtain ⟨hA, hB, hU, hP⟩ := setActivePanel_frame s (e.dataIdx.getD [])
    have hin2 : jsIncludes (cActive (setActivePanel s (e.dataIdx.getD []))).bgImage u = true := by
      rw [cActive_congr hA hB hU]
      exact hin
    obtain ⟨hA2, hB2, hU2, hP2⟩ :=
      ih (setActivePanel s (e.dataIdx.getD [])) hin2
        (fun e2 he2 => hall e2 (List.mem_cons_of_mem e he2))
    refine ⟨?_, ?_, ?_, ?_⟩
    · show (cRun (cStep s e) rest).bgA = s.bgA
      rw [hstep]
      exact hA2.trans hA
    · show (cRun (cStep s e) rest).bgB = s.bgB
      rw [hstep]
      exact hB2.trans hB
    · show (cRun (cStep s e) rest).useA = s.useA
      rw [hstep]
      exact hU2.trans hU
    · show (cRun (cStep s e) rest).preloads = s.preloads
      rw [hstep]
      exact hP2.trans hP

/-! ## Panel-state lemmas -/

theorem setActivePanel_idem (s : CState) (idx : Str) :
    setActivePanel (setActivePanel s idx) idx = setActivePanel s idx := by
  unfold setActivePanel
  simp [List.map_map]

theorem currentPanelCount_setActivePanel (s : CState) (idx : Str) :
    currentPanelCount (setActivePanel s idx) =
      s.panels.countP fun p => p.dataIdx == some idx := by
  unfold currentPanelCount setActivePanel
  rw [List.countP_map]
  rfl

/-- Every processed chapters event ends in `setActivePanel` at the
event's (defaulted) index: the final panel classes and `dataset.active`
are those of `setActivePanel`, whether or not a swap happened. -/
theorem cStep_panels {s : CState} {e : CEvent} {u : Str}
    (hi : e.isIntersecting = true) (hb : e.dataBg = some u) (hu : u ≠ []) :
    (cStep s e).panels = s.panels.map
      (fun p => { p with isActiveClass := p.dataIdx == some (e.dataIdx.getD []) }) ∧
    (cStep s e).datasetActive = e.dataIdx.getD [] := by
  simp only [cStep, hi, hb, Bool.true_eq_false, if_false, if_neg hu]
  split
  · exact ⟨rfl, rfl⟩
  · split <;> exact ⟨rfl, rfl⟩

/-! ## Claim theorems -/

/-- C1: Crossfade swap scenario. From the state where the primary layer
(A) is active showing black.jpeg and the secondary layer (B) is
inactive and empty, the event (imageURL white.jpeg, tint
rgba(1,2,3,.1)) ends with layer B active showing white.jpeg, layer A
inactive, the overlay tint rgba(1,2,3,.1), white.jpeg preloaded, and
the active layer — the engine's record of the last shown URL — showing
white.jpeg. -/
theorem claim1_crossfade_swap_scenario :
    let s0 : GState :=
      { layerA := { bgImage := cssUrl (str "black.jpeg"), isActive := true }
        layerB := { bgImage := [], isActive := false }
        overlayTint := none, useA := true, preloads := [] }
    let e : GEvent :=
      { isIntersecting := true, dataBg := some (str "white.jpeg")
        dataTint := some (str "rgba(1,2,3,.1)") }
    gStep true s0 e =
      { layerA := { bgImage := cssUrl (str "black.jpeg"), isActive := false }
        layerB := { bgImage := cssUrl (str "white.jpeg"), isActive := true }
        overlayTint := some (str "rgba(1,2,3,.1)"), useA := false
        preloads := [str "white.jpeg"] } ∧
    (gActive (gStep true s0 e)).bgImage = cssUrl (str "white.jpeg") := by
  decide

/-- C2 counterexample: with the active layer showing "ab.jpeg", an event
whose imageURL "b.jpeg" is not equal to the last shown URL (it is a
proper substring of it) does not cause a layer swap — the
`includes`-based check treats it as already showing and the state is
completely unchanged, refuting the exact-equality reading of the
idempotence check. -/
theorem claim2_substring_counterexample :
    let s0 : GState :=
      { layerA := { bgImage := cssUrl (str "ab.jpeg"), isActive := true }
        layerB := { bgImage := [], isActive := false }
        overlayTint := none, useA := true, preloads := [] }
    let e : GEvent :=
      { isIntersecting := true, dataBg := some (str "b.jpeg"), dataTint := none }
    str "b.jpeg" ≠ str "ab.jpeg" ∧ gStep true s0 e = s0 := by
  decide

/-- C2 amended: the already-showing decision is substring containment,
not exact string equality. In both topologies a processed event (with a
non-empty URL) skips the layer swap exactly when its URL occurs as a
substring of the active layer's `backgroundImage` string
(`url('lastShownURL')`); when it does not occur, the swap happens. -/
theorem claim2_amended_substring_decision :
    (∀ (o : Bool) (s : GState) (e : GEvent) (u : Str),
      e.isIntersecting = true → e.dataBg = some u → u ≠ [] →
      (jsIncludes (gActive s).bgImage u = true →
        (gStep o s e).layerA = s.layerA ∧ (gStep o s e).layerB = s.layerB ∧
        (gStep o s e).useA = s.useA) ∧
      (jsIncludes (gActive s).bgImage u = false →
        (gStep o s e).useA = !s.useA ∧
        gActive (gStep o s e) = { bgImage := cssUrl u, isActive := true } ∧
        (gInactive (gStep o s e)).isActive = false)) ∧
    (∀ (s : CState) (e : CEvent) (u : Str),
      e.isIntersecting = true → e.dataBg = some u → u ≠ [] →
      (jsIncludes (cActive s).bgImage u = true →
        (cStep s e).bgA = s.bgA ∧ (cStep s e).bgB = s.bgB ∧
        (cStep s e).useA = s.useA) ∧
      (jsIncludes (cActive s).bgImage u = false →
        (cStep s e).useA = !s.useA ∧
        cActive (cStep s e) = { bgImage := cssUrl u, isActive := true })) := by
  constructor
  · intro o s e u hi hb hu
    constructor
    · intro hin
      obtain ⟨hA, hB, hU, _⟩ := gStep_skip o hi hb hu hin
      exact ⟨hA, hB, hU⟩
    · intro hin
      obtain ⟨h1, h2, h3, _, _⟩ := gStep_swap o hi hb hu hin
      exact ⟨h1, h2, h3⟩
  · intro s e u hi hb hu
    constructor
    · intro hin
      rw [cStep_skip hi hb hu hin]
      obtain ⟨hA, hB, hU, _⟩ := setActivePanel_frame s (e.dataIdx.getD [])
      exact ⟨hA, hB, hU⟩
    · intro hin
      obtain ⟨h1, h2, _, _⟩ := cStep_swap hi hb hu hin
      exact ⟨h1, h2⟩

/-- Witness for the amended C2 theorem: the skip half applied at a
concrete state showing "ab.jpeg" and a concrete event carrying the
proper substring "b.jpeg". -/
theorem claim2_amended_substring_decision_witness :
    let s0 : GState :=
      { layerA := { bgImage := cssUrl (str "ab.jpeg"), isActive := true }
        layerB := { bgImage := [], isActive := false }
        overlayTint := none, useA := true, preloads := [] }
    let e : GEvent :=
      { isIntersecting := true, dataBg := some (str "b.jpeg"), dataTint := none }
    (gStep true s0 e).layerA = s0.layerA ∧ (gStep true s0 e).layerB = s0.layerB ∧
      (gStep true s0 e).useA = s0.useA := by
  intro s0 e
  exact (claim2_amended_substring_decision.1 true s0 e (str "b.jpeg")
    rfl rfl (by decide)).1 (by decide)

/-- C3: in both topology instances, starting from the bootstrap-created
layer pair (A carrying the `is-active` class, B not), exactly one of
the two layers is marked active after every sequence of processed
events — including the empty sequence, i.e. initially. -/
theorem claim3_exactly_one_layer_active :
    ∀ (o : Bool) (aImg : Str) (gevs : List GEvent)
      (ps : List Panel) (prior : Str) (cevs : List CEvent),
      let g0 : GState :=
        { layerA := { bgImage := aImg, isActive := true }
          layerB := { bgImage := [], isActive := false }
          overlayTint := none, useA := true, preloads := [] }
      exactlyOneActive (gRun o g0 gevs).layerA (gRun o g0 gevs).layerB ∧
      exactlyOneActive (cRun (cInit ps prior) cevs).bgA
        (cRun (cInit ps prior) cevs).bgB := by
  intro o aImg gevs ps prior cevs
  exact ⟨gInv_exactlyOne (gRun_inv o gevs ⟨rfl, rfl⟩),
         cInv_exactlyOne (cRun_inv cevs ⟨rfl, rfl⟩)⟩

/-- C4: for every run of "segment entered" events all carrying the same
(non-empty) image URL, the layers change at most on the first event of
the run: every later event of the run leaves both layers, the flip flag
and the preload list exactly as the first event left them, in both
topologies — so the displayed image changes at most once and no further
swap or preload happens. -/
theorem claim4_same_url_run_swaps_once :
    (∀ (o : Bool) (s : GState) (e0 : GEvent) (evs : List GEvent) (u : Str),
      e0.isIntersecting = true → e0.dataBg = some u → u ≠ [] →
      (∀ e ∈ evs, e.isIntersecting = true ∧ e.dataBg = some u) →
      (gRun o (gStep o s e0) evs).layerA = (gStep o s e0).layerA ∧
      (gRun o (gStep o s e0) evs).layerB = (gStep o s e0).layerB ∧
      (gRun o (gStep o s e0) evs).useA = (gStep o s e0).useA ∧
      (gRun o (gStep o s e0) evs).preloads = (gStep o s e0).preloads) ∧
    (∀ (s : CState) (e0 : CEvent) (evs : List CEvent) (u : Str),
      e0.isIntersecting = true → e0.dataBg = some u → u ≠ [] →
      (∀ e ∈ evs, e.isIntersecting = true ∧ e.dataBg = some u) →
      (cRun (cStep s e0) evs).bgA = (cStep s e0).bgA ∧
      (cRun (cStep s e0) evs).bgB = (cStep s e0).bgB ∧
      (cRun (cStep s e0) evs).useA = (cStep s e0).useA ∧
      (cRun (cStep s e0) evs).preloads = (cStep s e0).preloads) := by
  constructor
  · intro o s e0 evs u hi hb hu hall
    exact gRun_frozen o hu evs (gStep o s e0) (gStep_shows o hi hb hu) hall
  · intro s e0 evs u hi hb hu hall
    exact cRun_frozen hu evs (cStep s e0) (cStep_shows hi hb hu) hall

/-- Witness for C4: a concrete two-event same-URL run in the global
topology, starting from the bootstrap state. -/
theorem claim4_same_url_run_swaps_once_witness :
    let s0 : GState :=
      { layerA := { bgImage := [], isActive := true }
        layerB := { bgImage := [], isActive := false }
        overlayTint := none, useA := true, preloads := [] }
    let e : GEvent :=
      { isIntersecting := true, dataBg := some (str "a.jpg"), dataTint := none }
    (gRun true (gStep true s0 e) [e]).layerA = (gStep true s0 e).layerA ∧
    (gRun true (gStep true s0 e) [e]).layerB = (gStep true s0 e).layerB ∧
    (gRun true (gStep true s0 e) [e]).useA = (gStep true s0 e).useA ∧
    (gRun true (gStep true s0 e) [e]).preloads = (gStep true s0 e).preloads := by
  intro s0 e
  exact claim4_same_url_run_swaps_once.1 true s0 e [e] (str "a.jpg")
    rfl rfl (by decide) (by decide)

/-- C5: pinned topology panel/segment coupling. With panels 1 and 2 and
segments S1 (image a.jpg, index 1) and S2 (image a.jpg, index 2) fired
in order from the freshly initialized state: after S1 the active layer
shows a.jpg and panel 1 is current; after S2 the layers and flip flag
are completely unchanged (no swap) while the current panel becomes 2. -/
theorem claim5_panel_segment_coupling :
    let ps : List Panel :=
      [{ dataIdx := some (str "1"), dataBg := none, isActiveClass := false },
       { dataIdx := some (str "2"), dataBg := none, isActiveClass := false }]
    let s0 := cInit ps []
    let s1 := cStep s0 { isIntersecting := true, dataIdx := some (str "1")
                         dataBg := some (str "a.jpg") }
    let s2 := cStep s1 { isIntersecting := true, dataIdx := some (str "2")
                         dataBg := some (str "a.jpg") }
    ((cActive s1).bgImage = cssUrl (str "a.jpg") ∧
      s1.datasetActive = str "1" ∧
      s1.panels = [{ dataIdx := some (str "1"), dataBg := none, isActiveClass := true },
                   { dataIdx := some (str "2"), dataBg := none, isActiveClass := false }]) ∧
    ((cActive s2).bgImage = cssUrl (str "a.jpg") ∧
      s2.bgA = s1.bgA ∧ s2.bgB = s1.bgB ∧ s2.useA = s1.useA ∧
      s2.preloads = s1.preloads ∧
      s2.datasetActive = str "2" ∧
      s2.panels = [{ dataIdx := some (str "1"), dataBg := none, isActiveClass := false },
                   { dataIdx := some (str "2"), dataBg := none, isActiveClass := true }]) := by
  decide

/-- C6 counterexample: a chapter marker with no `data-idx` attribute
refutes "exactly one panel is current for every marker attribute
configuration". From the initialized state with one panel of index "1"
(which is then the single current panel), a processed entry event whose
marker has an image but no `data-idx` runs `setActivePanel('')`, which
matches no panel: afterwards zero panels are current. -/
theorem claim6_no_idx_counterexample :
    let s0 := cInit [{ dataIdx := some (str "1"), dataBg := none
                       isActiveClass := false }] []
    let e : CEvent := { isIntersecting := true, dataIdx := none
                        dataBg := some (str "x.jpg") }
    currentPanelCount s0 = 1 ∧ currentPanelCount (cStep s0 e) = 0 := by
  decide

/-- C6 amended: `setActivePanel` is idempotent unconditionally; and
exactly one panel is current after initialization, and after every
processed entry event, provided the index involved (the initial
`dataset.active` value, resp. the event marker's `data-idx` defaulted
to the empty string) matches exactly one panel's `data-idx` — without
that proviso (marker missing its `data-idx`, or an index matching zero
or several panels) the count can differ from one. -/
theorem claim6_amended_one_current_panel :
    (∀ (s : CState) (idx : Str),
      setActivePanel (setActivePanel s idx) idx = setActivePanel s idx) ∧
    (∀ (ps : List Panel) (prior : Str),
      ps.countP (fun p => p.dataIdx == some (if prior = [] then str "1" else prior)) = 1 →
      currentPanelCount (cInit ps prior) = 1) ∧
    (∀ (s : CState) (e : CEvent) (u : Str),
      e.isIntersecting = true → e.dataBg = some u → u ≠ [] →
      s.panels.countP (fun p => p.dataIdx == some (e.dataIdx.getD [])) = 1 →
      currentPanelCount (cStep s e) = 1) := by
  refine ⟨setActivePanel_idem, ?_, ?_⟩
  · intro ps prior h
    unfold cInit
    rw [currentPanelCount_setActivePanel]
    exact h
  · intro s e u hi hb hu h
    obtain ⟨hp, _⟩ := cStep_panels hi hb hu
    unfold currentPanelCount
    rw [hp, List.countP_map]
    exact h

/-- Witness for the amended C6 theorem: all three parts applied at a
concrete two-panel configuration. -/
theorem claim6_amended_one_current_panel_witness :
    let ps : List Panel :=
      [{ dataIdx := some (str "1"), dataBg := none, isActiveClass := false },
       { dataIdx := some (str "2"), dataBg := none, isActiveClass := false }]
    let s0 := cInit ps []
    let e : CEvent := { isIntersecting := true, dataIdx := some (str "2")
                        dataBg := some (str "a.jpg") }
    setActivePanel (setActivePanel s0 (str "2")) (str "2") = setActivePanel s0 (str "2") ∧
    currentPanelCount s0 = 1 ∧
    currentPanelCount (cStep s0 e) = 1 := by
  intro ps s0 e
  refine ⟨claim6_amended_one_current_panel.1 s0 (str "2"), ?_, ?_⟩
  · exact claim6_amended_one_current_panel.2.1 ps [] (by decide)
  · exact claim6_amended_one_current_panel.2.2 s0 e (str "a.jpg") rfl rfl
      (by decide) (by decide)

/-- C7: an entry event whose image URL is absent or empty is ignored
entirely in both topologies — the controller state after the event,
including layers, classes, tint, panel state and the preload list, is
exactly the state before it. -/
theorem claim7_inert_event_ignored :
    (∀ (o : Bool) (s : GState) (e : GEvent),
      e.dataBg = none ∨ e.dataBg = some [] → gStep o s e = s) ∧
    (∀ (s : CState) (e : CEvent),
      e.dataBg = none ∨ e.dataBg = some [] → cStep s e = s) := by
  constructor
  · intro o s e h
    unfold gStep
    split
    · rfl
    · rcases h with h | h <;> simp [h]
  · intro s e h
    unfold cStep
    split
    · rfl
    · rcases h with h | h <;> simp [h]

/-- Witness for C7: a missing-URL global event (which still carries a
tint) and an empty-URL chapters event (which still carries an index)
leave their concrete states untouched. -/
theorem claim7_inert_event_ignored_witness :
    let s0 : GState :=
      { layerA := { bgImage := cssUrl (str "black.jpeg"), isActive := true }
        layerB := { bgImage := [], isActive := false }
        overlayTint := none, useA := true, preloads := [] }
    let c0 := cInit [{ dataIdx := some (str "1"), dataBg := none
                       isActiveClass := false }] []
    gStep true s0 { isIntersecting := true, dataBg := none
                    dataTint := some (str "rgba(0,0,0,.2)") } = s0 ∧
    cStep c0 { isIntersecting := true, dataIdx := some (str "2")
               dataBg := some [] } = c0 := by
  intro s0 c0
  exact ⟨claim7_inert_event_ignored.1 true s0 _ (Or.inl rfl),
         claim7_inert_event_ignored.2 c0 _ (Or.inr rfl)⟩

/-- C8 counterexample: in the pinned topology an authored `.chapter`
marker is observed exactly as found — no default height is assigned.
A marker whose height is unset (zero) is handed to the observer still
with no height, refuting "no observed marker has zero height" for both
topology instances. -/
theorem claim8_zero_height_counterexample :
    let m : MarkerElem := { dataIdx := some (str "1")
                            dataBg := some (str "x.jpg")
                            dataTint := none, styleHeight := [] }
    let inp : EngineInput :=
      { prefersReduced := false, globalPresent := false, globalMarkers := []
        overlay := false
        g0 := { layerA := { bgImage := [], isActive := true }
                layerB := { bgImage := [], isActive := false }
                overlayTint := none, useA := true, preloads := [] }
        gEvents := []
        chaptersPresent := true, authoredMarkers := [m]
        panels0 := [], priorDatasetActive := []
        c0bgA := { bgImage := [], isActive := true }
        c0bgB := { bgImage := [], isActive := false }
        cEvents := [] }
    (runEngine inp).cObserved = [m] ∧ m.styleHeight = [] := by
  decide

/-- C8 amended: only the global topology assigns a default height
(`'120px'`) to markers whose inline height is unset before observing
them, so every observed global marker has a non-empty height; in the
pinned topology, synthesized markers are created with height `'140vh'`,
but authored chapter markers are observed exactly as found, with no
height adjustment at all. -/
theorem claim8_amended_marker_heights :
    (∀ m : MarkerElem, (globalObservedMarker m).styleHeight ≠ []) ∧
    (∀ (i : Nat) (p : Panel), (synthMarker i p).styleHeight = str "140vh") ∧
    (∀ (authored : List MarkerElem) (ps : List Panel), authored ≠ [] →
      chaptersLiveMarkers authored ps = authored) := by
  refine ⟨?_, fun i p => rfl, ?_⟩
  · intro m
    unfold globalObservedMarker
    split
    · intro hC
      simp [str] at hC
    · simpa using ‹¬m.styleHeight = []›
  · intro authored ps h
    unfold chaptersLiveMarkers
    simp [h]

/-- Witness for the amended C8 theorem: the height-defaulting of an
unset-height global marker and the as-found observation of a concrete
authored chapter marker list. -/
theorem claim8_amended_marker_heights_witness :
    let m : MarkerElem := { dataIdx := some (str "1")
                            dataBg := some (str "x.jpg")
                            dataTint := none, styleHeight := [] }
    (globalObservedMarker m).styleHeight ≠ [] ∧
    (synthMarker 0 { dataIdx := none, dataBg := none
                     isActiveClass := false }).styleHeight = str "140vh" ∧
    chaptersLiveMarkers [m] [] = [m] := by
  intro m
  exact ⟨claim8_amended_marker_heights.1 m,
         claim8_amended_marker_heights.2.1 0 _,
         claim8_amended_marker_heights.2.2 [m] [] (by decide)⟩

/-- C9: with the reduced-motion preference set, `scrollDrivenBackground`
returns immediately: no marker of either topology is handed to an
IntersectionObserver, and the layers, overlay tint, `dataset.active`
and panel classes of both topologies stay exactly as the engine found
them, with no preload issued, for any page structure and any event
streams. -/
theorem claim9_reduced_motion_never_runs :
    ∀ inp : EngineInput, inp.prefersReduced = true →
      runEngine inp =
        { gObserved := [], cObserved := []
          gFinal := inp.g0, cFinal := untouchedChapters inp } := by
  intro inp h
  simp [runEngine, h]

/-- Witness for C9: a reduced-motion input with markers, panels and
pending events in both topologies produces the untouched outcome. -/
theorem claim9_reduced_motion_never_runs_witness :
    let inp : EngineInput :=
      { prefersReduced := true, globalPresent := true
        globalMarkers := [{ dataIdx := some (str "1")
                            dataBg := some (str "black.jpeg")
                            dataTint := some (str "rgba(0,0,0,.1)")
                            styleHeight := [] }]
        overlay := true
        g0 := { layerA := { bgImage := [], isActive := true }
                layerB := { bgImage := [], isActive := false }
                overlayTint := none, useA := true, preloads := [] }
        gEvents := [{ isIntersecting := true, dataBg := some (str "white.jpeg")
                      dataTint := none }]
        chaptersPresent := true, authoredMarkers := []
        panels0 := [{ dataIdx := some (str "1"), dataBg := none
                      isActiveClass := false }]
        priorDatasetActive := []
        c0bgA := { bgImage := [], isActive := true }
        c0bgB := { bgImage := [], isActive := false }
        cEvents := [{ isIntersecting := true, dataIdx := some (str "1")
                      dataBg := some (str "a.jpg") }] }
    runEngine inp =
      { gObserved := [], cObserved := []
        gFinal := inp.g0, cFinal := untouchedChapters inp } := by
  intro inp
  exact claim9_reduced_motion_never_runs inp rfl

/-- C10: in the global topology the overlay tint is written only from a
non-empty tint value: an event whose `data-tint` is absent or empty
leaves the overlay tint unchanged on every path, including when the
same event performs an image swap. -/
theorem claim10_tint_needs_nonempty_value :
    ∀ (o : Bool) (s : GState) (e : GEvent),
      e.dataTint = none ∨ e.dataTint = some [] →
      (gStep o s e).overlayTint = s.overlayTint :=
  fun o s _ h => gStep_tint_unchanged o s h

/-- Witness for C10: a tintless event that does swap the image (the
flip flag toggles) still leaves the previously set overlay tint. -/
theorem claim10_tint_needs_nonempty_value_witness :
    let s0 : GState :=
      { layerA := { bgImage := cssUrl (str "black.jpeg"), isActive := true }
        layerB := { bgImage := [], isActive := false }
        overlayTint := some (str "rgba(9,9,9,.5)"), useA := true, preloads := [] }
    let e : GEvent := { isIntersecting := true, dataBg := some (str "white.jpeg")
                        dataTint := none }
    (gStep true s0 e).overlayTint = s0.overlayTint ∧
      (gStep true s0 e).useA = !s0.useA := by
  intro s0 e
  exact ⟨claim10_tint_needs_nonempty_value true s0 e (Or.inl rfl), by decide⟩
